import Mathlib

/-!
Shallow embedding of the USB DFU function driver
(src/usb/class/dfu/device/dfudf.c), covering the protocol state machine:
the globals `dfu_state`, `dfu_status`, `dfu_download_data`,
`dfu_download_length`, `dfu_download_offset`, `dfu_manifestation_complete`
and the two request handlers `dfudf_in_req` and `dfudf_out_req`.
-/

/-- Modelled from the spec: the state enumeration `usb_dfu_state` is declared
in `usb_protocol_dfu.h`, which is not under src/. The spec's data model (§3)
lists exactly these states, "modeled after the USB Device Firmware Upgrade
class"; the numeric codes are the USB DFU 1.1 bState codes that enumeration
carries (dfuIDLE = 2 … dfuERROR = 10). -/
inductive UsbDfuState where
  | dfuIdle
  | dfuDnloadSync
  | dfuDnbusy
  | dfuDnloadIdle
  | dfuManifestSync
  | dfuManifest
  | dfuManifestWaitReset
  | dfuUploadIdle
  | dfuError
  deriving DecidableEq, Repr

/-- Numeric code of a DFU state, as stored in the C enum and copied byte-wise
into GETSTATUS/GETSTATE responses (`response[4] = dfu_state`). -/
def stateCode : UsbDfuState → Nat
  | .dfuIdle              => 2
  | .dfuDnloadSync        => 3
  | .dfuDnbusy            => 4
  | .dfuDnloadIdle        => 5
  | .dfuManifestSync      => 6
  | .dfuManifest          => 7
  | .dfuManifestWaitReset => 8
  | .dfuUploadIdle        => 9
  | .dfuError             => 10

/-- Modelled from the spec: the status enumeration `usb_dfu_status` is declared
in `usb_protocol_dfu.h`, not under src/. The spec (§3) gives "`Ok` plus a set
of error codes (e.g. program error)"; the driver only ever writes
`USB_DFU_STATUS_OK` and `USB_DFU_STATUS_ERR_PROG`, whose USB DFU 1.1 codes are
0x00 and 0x06. -/
inductive UsbDfuStatus where
  | ok
  | errProg
  deriving DecidableEq, Repr

/-- Numeric code of a DFU status, copied byte-wise into the GETSTATUS
response (`response[0] = dfu_status`). -/
def statusCode : UsbDfuStatus → Nat
  | .ok      => 0
  | .errProg => 6

/-- DFU class request codes (USB DFU 1.1), from `usb_protocol_dfu.h`. -/
def USB_DFU_DETACH : Nat := 0

/-- DFU request code DNLOAD. -/
def USB_DFU_DNLOAD : Nat := 1

/-- DFU request code UPLOAD. -/
def USB_DFU_UPLOAD : Nat := 2

/-- DFU request code GETSTATUS. -/
def USB_DFU_GETSTATUS : Nat := 3

/-- DFU request code CLRSTATUS. -/
def USB_DFU_CLRSTATUS : Nat := 4

/-- DFU request code GETSTATE. -/
def USB_DFU_GETSTATE : Nat := 5

/-- DFU request code ABORT. -/
def USB_DFU_ABORT : Nat := 6

/-- Control transfer stage (`enum usb_ctrl_stage`); the handlers compare the
stage against `USB_SETUP_STAGE` and `USB_DATA_STAGE` only. -/
inductive UsbCtrlStage where
  | setupStage
  | dataStage
  deriving DecidableEq, Repr

/-- A classified control request (`struct usb_req`): the fields the DFU
handlers read. All are machine integers in C (uint8/uint16), represented as
`Nat`; no arithmetic on them can overflow in the embedded code
(`wValue * 512 ≤ 65535 * 512 < 2^32` fits `size_t`). -/
structure UsbReq where
  bRequest : Nat
  wValue   : Nat
  wLength  : Nat
  deriving DecidableEq, Repr

/-- Capability bits of the DFU functional descriptor
(`usb_dfu_func_desc->bmAttributes`) that the handlers test:
bit `USB_REQ_DFU_DNLOAD` (download supported) and bit
`USB_DFU_ATTRIBUTES_MANIFEST_TOLERANT`. The descriptor bytes
(`DFUD_IFACE_DESCB`, dfudf_desc.h) are not under src/, so the two tested bits
are kept as parameters, matching the spec's read-only capability flags (§3). -/
structure DfuAttrs where
  canDnload        : Bool
  manifestTolerant : Bool
  deriving DecidableEq, Repr

/-- Modelled from the spec: the concrete value of the download-capability bit
lives in `DFUD_IFACE_DESCB` (dfudf_desc.h), not under src/. The spec (§1, §4.2)
describes downloading as the primary supported path of this firmware-upgrade
driver, so the bit is set. -/
def descCanDnload : Bool := true

/-- The device's descriptor attributes with the manifestation-tolerance bit
left as a parameter (the spec's transition table, §4.1, lists both the
tolerant and the non-tolerant outcome). -/
def descAttrs (mt : Bool) : DfuAttrs :=
  { canDnload := descCanDnload, manifestTolerant := mt }

/-- The driver's global mutable state: `dfu_state`, `dfu_status`,
`dfu_download_data[512]`, `dfu_download_length`, `dfu_download_offset`,
`dfu_manifestation_complete` (dfudf.c lines 42-48). The staging buffer is
written by the USB core during the data stage, never by the handlers
themselves. -/
structure DfuGlobals where
  dfu_state                  : UsbDfuState
  dfu_status                 : UsbDfuStatus
  dfu_download_data          : List Nat
  dfu_download_length        : Nat
  dfu_download_offset        : Nat
  dfu_manifestation_complete : Bool
  deriving DecidableEq, Repr

/-- Initial values of the globals (dfudf.c lines 42-48). -/
def dfu_init : DfuGlobals :=
  { dfu_state := .dfuIdle
  , dfu_status := .ok
  , dfu_download_data := List.replicate 512 0
  , dfu_download_length := 0
  , dfu_download_offset := 0
  , dfu_manifestation_complete := false }

/-- One call of the external transfer primitive `usbdc_xfer`:
`bytes` queues a response payload, `ack` a zero-length acknowledgment, and
`armRecv` arms reception of `len` bytes into `dfu_download_data` (the DNLOAD
setup-stage call). -/
inductive XferOut where
  | bytes (data : List Nat)
  | ack
  | armRecv (len : Nat)
  deriving DecidableEq, Repr

/-- Result codes the handlers return (`err_codes`): only the three produced by
`dfudf_in_req`/`dfudf_out_req` are needed. -/
inductive ErrCode where
  | errNone
  | errUnsupportedOp
  | errInvalidArg
  deriving DecidableEq, Repr

/-- Outcome of one handler call: the updated globals, the returned code, and
the `usbdc_xfer` call made, if any. The external transfer primitive is
modelled as always succeeding (returning `ERR_NONE`), its call recorded in
`xfer`. -/
structure ReqResult where
  globals : DfuGlobals
  ret     : ErrCode
  xfer    : Option XferOut
  deriving DecidableEq, Repr

/-- `dfudf_in_req` (dfudf.c lines 149-193): the DFU IN (device-to-host)
request handler. On the data stage it returns immediately; otherwise it
dispatches on `bRequest`: UPLOAD is unsupported, GETSTATUS queues the 6-byte
status response and then advances `DnloadSync → DnBusy` or the `ManifestSync`
branch, GETSTATE queues the one-byte state, anything else is an error. -/
def dfudf_in_req (attrs : DfuAttrs) (req : UsbReq) (stage : UsbCtrlStage)
    (g : DfuGlobals) : ReqResult :=
  if stage = .dataStage then
    { globals := g, ret := .errNone, xfer := none }
  else if req.bRequest = USB_DFU_UPLOAD then
    { globals := { g with dfu_state := .dfuError }
    , ret := .errUnsupportedOp, xfer := none }
  else if req.bRequest = USB_DFU_GETSTATUS then
    let response : List Nat :=
      [statusCode g.dfu_status, 10, 0, 0, stateCode g.dfu_state, 0]
    let g1 : DfuGlobals :=
      if g.dfu_state = .dfuDnloadSync then
        { g with dfu_state := .dfuDnbusy }
      else if g.dfu_state = .dfuManifestSync then
        if ¬ g.dfu_manifestation_complete then
          { g with dfu_state := .dfuManifest }
        else if attrs.manifestTolerant then
          { g with dfu_state := .dfuIdle }
        else
          { g with dfu_state := .dfuManifestWaitReset }
      else g
    { globals := g1, ret := .errNone, xfer := some (.bytes response) }
  else if req.bRequest = USB_DFU_GETSTATE then
    { globals := g, ret := .errNone
    , xfer := some (.bytes [stateCode g.dfu_state]) }
  else
    { globals := { g with dfu_state := .dfuError }
    , ret := .errInvalidArg, xfer := none }

/-- `dfudf_out_req` (dfudf.c lines 202-264): the DFU OUT (host-to-device)
request handler. DETACH is unsupported; CLRSTATUS clears the error status when
in `Error` or when the status is not Ok, and always ACKs; ABORT resets the
download offset and forces `Idle`, always ACKing; DNLOAD runs the guarded
download path; anything else is an error. -/
def dfudf_out_req (attrs : DfuAttrs) (req : UsbReq) (stage : UsbCtrlStage)
    (g : DfuGlobals) : ReqResult :=
  if req.bRequest = USB_DFU_DETACH then
    { globals := { g with dfu_state := .dfuError }
    , ret := .errUnsupportedOp, xfer := none }
  else if req.bRequest = USB_DFU_CLRSTATUS then
    let g1 : DfuGlobals :=
      if g.dfu_state = .dfuError ∨ g.dfu_status ≠ .ok then
        { g with dfu_status := .ok, dfu_state := .dfuIdle }
      else g
    { globals := g1, ret := .errNone, xfer := some .ack }
  else if req.bRequest = USB_DFU_ABORT then
    { globals := { g with dfu_download_offset := 0, dfu_state := .dfuIdle }
    , ret := .errNone, xfer := some .ack }
  else if req.bRequest = USB_DFU_DNLOAD then
    if ¬ attrs.canDnload then
      { globals := { g with dfu_state := .dfuError }
      , ret := .errUnsupportedOp, xfer := none }
    else if g.dfu_state ≠ .dfuIdle ∧ g.dfu_state ≠ .dfuDnloadIdle then
      { globals := { g with dfu_status := .errProg, dfu_state := .dfuError }
      , ret := .errInvalidArg, xfer := none }
    else if g.dfu_state = .dfuIdle ∧ req.wLength = 0 then
      { globals := { g with dfu_status := .errProg, dfu_state := .dfuError }
      , ret := .errInvalidArg, xfer := none }
    else if g.dfu_state = .dfuDnloadIdle ∧ req.wLength = 0 then
      { globals := { g with
          dfu_manifestation_complete := false
          dfu_state := .dfuManifestSync }
      , ret := .errNone, xfer := some .ack }
    else if req.wLength > 512 then
      { globals := { g with dfu_status := .errProg, dfu_state := .dfuError }
      , ret := .errInvalidArg, xfer := none }
    else if stage = .setupStage then
      { globals := g, ret := .errNone, xfer := some (.armRecv req.wLength) }
    else
      { globals := { g with
          dfu_download_offset := req.wValue * 512
          dfu_download_length := req.wLength
          dfu_state := .dfuDnloadSync }
      , ret := .errNone, xfer := some .ack }
  else
    { globals := { g with dfu_state := .dfuError }
    , ret := .errInvalidArg, xfer := none }

/-- Direction of a dispatched request, from the `bmRequestType` direction bit
tested in `dfudf_req` (dfudf.c line 280). -/
inductive DfuDir where
  | dirIn
  | dirOut
  deriving DecidableEq, Repr

/-- Effect on the globals of dispatching one request in the given
direction (`dfudf_req` routing to `dfudf_in_req` or `dfudf_out_req`). -/
def dfu_step (attrs : DfuAttrs) (dir : DfuDir) (req : UsbReq)
    (stage : UsbCtrlStage) (g : DfuGlobals) : DfuGlobals :=
  match dir with
  | .dirIn  => (dfudf_in_req attrs req stage g).globals
  | .dirOut => (dfudf_out_req attrs req stage g).globals

/-- Global states reachable from the initial globals by request-handler steps
and by the external applier, which may rewrite the staging buffer contents and
the manifestation flag (spec §6) but touches nothing else. -/
inductive Reachable (attrs : DfuAttrs) : DfuGlobals → Prop where
  | init : Reachable attrs dfu_init
  | step {g : DfuGlobals} (dir : DfuDir) (req : UsbReq) (stage : UsbCtrlStage) :
      Reachable attrs g → Reachable attrs (dfu_step attrs dir req stage g)
  | env {g : DfuGlobals} (d : List Nat) (m : Bool) :
      Reachable attrs g →
      Reachable attrs { g with
        dfu_download_data := d
        dfu_manifestation_complete := m }

/-- The globals after the data phase of an accepted 64-byte download of
block 0, starting from the initial globals (the first step of the spec's
sequence test). -/
def seqDnload (mt : Bool) : DfuGlobals :=
  (dfudf_out_req (descAttrs mt) ⟨USB_DFU_DNLOAD, 0, 64⟩ .dataStage
    dfu_init).globals

/-- The outcome of the GETSTATUS poll that follows `seqDnload` (the second
step of the spec's sequence test). -/
def seqPoll (mt : Bool) : ReqResult :=
  dfudf_in_req (descAttrs mt) ⟨USB_DFU_GETSTATUS, 0, 0⟩ .setupStage
    (seqDnload mt)

/-- Globals in `ManifestSync` with manifestation reported complete by the
external applier. -/
def gManifestDone : DfuGlobals :=
  { dfu_init with dfu_state := .dfuManifestSync
                  dfu_manifestation_complete := true }

/-- Globals in the `Error` state with the program-error status (reached, for
example, by a zero-length DNLOAD from the initial globals). -/
def gErrorProg : DfuGlobals :=
  { dfu_init with dfu_state := .dfuError, dfu_status := .errProg }

/-- C1, counterexample: in the sequence Idle → download(length 64, block 0,
data phase) → GETSTATUS poll, every part of the claim holds except the
response bytes: the code stores the pre-transition state `DnloadSync` in
byte 4 of the GETSTATUS response (`response[4] = dfu_state` runs before the
`DnloadSync → DnBusy` switch), so the queued response is not
`[Ok,10,0,0,DnBusy,0]`. -/
theorem C1_counterexample :
    (seqDnload false).dfu_state = .dfuDnloadSync
    ∧ (seqDnload false).dfu_download_offset = 0
    ∧ (seqDnload false).dfu_download_length = 64
    ∧ (seqPoll false).globals.dfu_state = .dfuDnbusy
    ∧ (seqPoll false).xfer ≠
        some (.bytes [statusCode .ok, 10, 0, 0, stateCode .dfuDnbusy, 0]) := by
  decide

/-- C1, amended: starting from Idle, the accepted download of 64 bytes at
block 0 (data phase) puts the machine in `DnloadSync` with offset 0 and
length 64; the subsequent GETSTATUS poll queues the 6-byte response
`[Ok,10,0,0,DnloadSync,0]` — byte 4 holds the state at the moment the
response is built, `DnloadSync` — and leaves the machine in `DnBusy`. -/
theorem C1_sequence_amended (mt : Bool) :
    (seqDnload mt).dfu_state = .dfuDnloadSync
    ∧ (seqDnload mt).dfu_download_offset = 0
    ∧ (seqDnload mt).dfu_download_length = 64
    ∧ (seqPoll mt).xfer =
        some (.bytes [statusCode .ok, 10, 0, 0, stateCode .dfuDnloadSync, 0])
    ∧ (seqPoll mt).globals.dfu_state = .dfuDnbusy := by
  cases mt <;> decide

/-- C4: for every current state (and any attributes, stage, and request
fields), an ABORT request forces the state to `Idle`, resets the staged
download offset to zero, and queues a zero-length acknowledgment. -/
theorem C4_abort_forces_idle (attrs : DfuAttrs) (req : UsbReq)
    (stage : UsbCtrlStage) (g : DfuGlobals)
    (h : req.bRequest = USB_DFU_ABORT) :
    (dfudf_out_req attrs req stage g).globals.dfu_state = .dfuIdle
    ∧ (dfudf_out_req attrs req stage g).globals.dfu_download_offset = 0
    ∧ (dfudf_out_req attrs req stage g).xfer = some .ack := by
  simp [dfudf_out_req, h, USB_DFU_DETACH, USB_DFU_CLRSTATUS, USB_DFU_ABORT]

/-- C4, witness: ABORT from `DnloadIdle` with a staged offset. -/
theorem C4_abort_forces_idle_witness :
    (⟨USB_DFU_ABORT, 0, 0⟩ : UsbReq).bRequest = USB_DFU_ABORT
    ∧ ((dfudf_out_req (descAttrs false) ⟨USB_DFU_ABORT, 0, 0⟩ .setupStage
          { dfu_init with dfu_state := .dfuDnloadIdle
                          dfu_download_offset := 512 }).globals.dfu_state
          = .dfuIdle
       ∧ (dfudf_out_req (descAttrs false) ⟨USB_DFU_ABORT, 0, 0⟩ .setupStage
          { dfu_init with dfu_state := .dfuDnloadIdle
                          dfu_download_offset := 512 }).globals.dfu_download_offset
          = 0
       ∧ (dfudf_out_req (descAttrs false) ⟨USB_DFU_ABORT, 0, 0⟩ .setupStage
          { dfu_init with dfu_state := .dfuDnloadIdle
                          dfu_download_offset := 512 }).xfer = some .ack) :=
  ⟨rfl, C4_abort_forces_idle _ _ _ _ rfl⟩

/-- C5, counterexample: with state `Idle` (not `Error`) but status `ErrProg`,
a CLRSTATUS request does not leave the status unchanged — the code's guard is
`state == Error || status != Ok`, so it also fires outside `Error`. -/
theorem C5_counterexample :
    ({ dfu_init with dfu_status := .errProg } : DfuGlobals).dfu_state
      ≠ .dfuError
    ∧ (dfudf_out_req (descAttrs false) ⟨USB_DFU_CLRSTATUS, 0, 0⟩ .setupStage
        { dfu_init with dfu_status := .errProg }).globals.dfu_status
      ≠ ({ dfu_init with dfu_status := .errProg } : DfuGlobals).dfu_status := by
  decide

/-- C5, amended: a CLRSTATUS request always queues a zero-length
acknowledgment; if the current state is `Error` or the status is not Ok it
resets the status to Ok and the state to `Idle`, and otherwise it leaves the
globals unchanged. -/
theorem C5_clrstatus_behavior (attrs : DfuAttrs) (req : UsbReq)
    (stage : UsbCtrlStage) (g : DfuGlobals)
    (h : req.bRequest = USB_DFU_CLRSTATUS) :
    (dfudf_out_req attrs req stage g).xfer = some .ack
    ∧ (dfudf_out_req attrs req stage g).globals =
        (if g.dfu_state = .dfuError ∨ g.dfu_status ≠ .ok then
          { g with dfu_status := .ok, dfu_state := .dfuIdle }
         else g) := by
  simp [dfudf_out_req, h, USB_DFU_DETACH, USB_DFU_CLRSTATUS]

/-- C5, witness: CLRSTATUS from the `Error` state with status `ErrProg`. -/
theorem C5_clrstatus_behavior_witness :
    (⟨USB_DFU_CLRSTATUS, 0, 0⟩ : UsbReq).bRequest = USB_DFU_CLRSTATUS
    ∧ ((dfudf_out_req (descAttrs false) ⟨USB_DFU_CLRSTATUS, 0, 0⟩ .setupStage
          { dfu_init with dfu_state := .dfuError
                          dfu_status := .errProg }).xfer = some .ack
       ∧ (dfudf_out_req (descAttrs false) ⟨USB_DFU_CLRSTATUS, 0, 0⟩ .setupStage
          { dfu_init with dfu_state := .dfuError
                          dfu_status := .errProg }).globals =
          (if ({ dfu_init with dfu_state := .dfuError
                               dfu_status := .errProg } : DfuGlobals).dfu_state
                = .dfuError
              ∨ ({ dfu_init with dfu_state := .dfuError
                                 dfu_status := .errProg } : DfuGlobals).dfu_status
                ≠ .ok then
            { ({ dfu_init with dfu_state := .dfuError
                               dfu_status := .errProg } : DfuGlobals) with
                dfu_status := .ok, dfu_state := .dfuIdle }
           else { dfu_init with dfu_state := .dfuError
                                dfu_status := .errProg })) :=
  ⟨rfl, C5_clrstatus_behavior _ _ _ _ rfl⟩

/-- C7: a GETSTATE request in the setup stage leaves the globals — state,
status, offset, length, staging buffer, manifestation flag — entirely
unchanged, and queues exactly one byte: the numeric code of the current
state. -/
theorem C7_getstate_pure (attrs : DfuAttrs) (req : UsbReq) (g : DfuGlobals)
    (h : req.bRequest = USB_DFU_GETSTATE) :
    (dfudf_in_req attrs req .setupStage g).globals = g
    ∧ (dfudf_in_req attrs req .setupStage g).xfer =
        some (.bytes [stateCode g.dfu_state]) := by
  simp [dfudf_in_req, h, USB_DFU_UPLOAD, USB_DFU_GETSTATUS, USB_DFU_GETSTATE]

/-- C7, witness: GETSTATE while in `ManifestSync`. -/
theorem C7_getstate_pure_witness :
    (⟨USB_DFU_GETSTATE, 0, 0⟩ : UsbReq).bRequest = USB_DFU_GETSTATE
    ∧ ((dfudf_in_req (descAttrs false) ⟨USB_DFU_GETSTATE, 0, 0⟩ .setupStage
          { dfu_init with dfu_state := .dfuManifestSync }).globals
          = { dfu_init with dfu_state := .dfuManifestSync }
       ∧ (dfudf_in_req (descAttrs false) ⟨USB_DFU_GETSTATE, 0, 0⟩ .setupStage
          { dfu_init with dfu_state := .dfuManifestSync }).xfer
          = some (.bytes [stateCode ({ dfu_init with
              dfu_state := .dfuManifestSync } : DfuGlobals).dfu_state])) :=
  ⟨rfl, C7_getstate_pure _ _ _ rfl⟩

/-- C3: with the download capability set (the spec-modelled descriptor bit),
a DNLOAD request whose wLength exceeds the 512-byte staging capacity is
rejected from every current state: status becomes `ErrProg`, state becomes
`Error`, the handler returns `ERR_INVALID_ARG`, and the staging buffer,
offset and length are untouched. -/
theorem C3_oversized_dnload_rejected (mt : Bool) (req : UsbReq)
    (stage : UsbCtrlStage) (g : DfuGlobals)
    (h : req.bRequest = USB_DFU_DNLOAD) (hl : req.wLength > 512) :
    (dfudf_out_req (descAttrs mt) req stage g).globals.dfu_status = .errProg
    ∧ (dfudf_out_req (descAttrs mt) req stage g).globals.dfu_state = .dfuError
    ∧ (dfudf_out_req (descAttrs mt) req stage g).ret = .errInvalidArg
    ∧ (dfudf_out_req (descAttrs mt) req stage g).globals.dfu_download_data
        = g.dfu_download_data
    ∧ (dfudf_out_req (descAttrs mt) req stage g).globals.dfu_download_offset
        = g.dfu_download_offset
    ∧ (dfudf_out_req (descAttrs mt) req stage g).globals.dfu_download_length
        = g.dfu_download_length := by
  have h0 : req.wLength ≠ 0 := by omega
  rcases g with ⟨s, st, d, len, off, m⟩
  cases s <;>
    simp [dfudf_out_req, h, hl, h0, descAttrs, descCanDnload,
      USB_DFU_DETACH, USB_DFU_CLRSTATUS, USB_DFU_ABORT, USB_DFU_DNLOAD]

/-- C3, witness: a 600-byte DNLOAD from `DnloadIdle`. -/
theorem C3_oversized_dnload_rejected_witness :
    (⟨USB_DFU_DNLOAD, 0, 600⟩ : UsbReq).bRequest = USB_DFU_DNLOAD
    ∧ (⟨USB_DFU_DNLOAD, 0, 600⟩ : UsbReq).wLength > 512
    ∧ ((dfudf_out_req (descAttrs false) ⟨USB_DFU_DNLOAD, 0, 600⟩ .setupStage
          { dfu_init with dfu_state := .dfuDnloadIdle }).globals.dfu_status
          = .errProg
       ∧ (dfudf_out_req (descAttrs false) ⟨USB_DFU_DNLOAD, 0, 600⟩ .setupStage
          { dfu_init with dfu_state := .dfuDnloadIdle }).globals.dfu_state
          = .dfuError
       ∧ (dfudf_out_req (descAttrs false) ⟨USB_DFU_DNLOAD, 0, 600⟩ .setupStage
          { dfu_init with dfu_state := .dfuDnloadIdle }).ret = .errInvalidArg
       ∧ (dfudf_out_req (descAttrs false) ⟨USB_DFU_DNLOAD, 0, 600⟩ .setupStage
          { dfu_init with dfu_state := .dfuDnloadIdle }).globals.dfu_download_data
          = ({ dfu_init with
                dfu_state := .dfuDnloadIdle } : DfuGlobals).dfu_download_data
       ∧ (dfudf_out_req (descAttrs false) ⟨USB_DFU_DNLOAD, 0, 600⟩ .setupStage
          { dfu_init with dfu_state := .dfuDnloadIdle }).globals.dfu_download_offset
          = ({ dfu_init with
                dfu_state := .dfuDnloadIdle } : DfuGlobals).dfu_download_offset
       ∧ (dfudf_out_req (descAttrs false) ⟨USB_DFU_DNLOAD, 0, 600⟩ .setupStage
          { dfu_init with dfu_state := .dfuDnloadIdle }).globals.dfu_download_length
          = ({ dfu_init with
                dfu_state := .dfuDnloadIdle } : DfuGlobals).dfu_download_length) :=
  ⟨rfl, by decide, C3_oversized_dnload_rejected false _ _ _ rfl (by decide)⟩

/-- C6: with the download capability set (the spec-modelled descriptor bit),
a DNLOAD request of length zero received in `Idle` is never accepted: status
becomes `ErrProg`, state becomes `Error`, the handler returns
`ERR_INVALID_ARG`, and no acknowledgment or transfer is queued. -/
theorem C6_zero_length_idle_rejected (mt : Bool) (req : UsbReq)
    (stage : UsbCtrlStage) (g : DfuGlobals)
    (h : req.bRequest = USB_DFU_DNLOAD) (hl : req.wLength = 0)
    (hs : g.dfu_state = .dfuIdle) :
    (dfudf_out_req (descAttrs mt) req stage g).globals.dfu_status = .errProg
    ∧ (dfudf_out_req (descAttrs mt) req stage g).globals.dfu_state = .dfuError
    ∧ (dfudf_out_req (descAttrs mt) req stage g).ret = .errInvalidArg
    ∧ (dfudf_out_req (descAttrs mt) req stage g).xfer = none := by
  simp [dfudf_out_req, h, hl, hs, descAttrs, descCanDnload,
    USB_DFU_DETACH, USB_DFU_CLRSTATUS, USB_DFU_ABORT, USB_DFU_DNLOAD]

/-- C6, witness: a zero-length DNLOAD in the initial (Idle) globals. -/
theorem C6_zero_length_idle_rejected_witness :
    (⟨USB_DFU_DNLOAD, 0, 0⟩ : UsbReq).bRequest = USB_DFU_DNLOAD
    ∧ (⟨USB_DFU_DNLOAD, 0, 0⟩ : UsbReq).wLength = 0
    ∧ dfu_init.dfu_state = .dfuIdle
    ∧ ((dfudf_out_req (descAttrs false) ⟨USB_DFU_DNLOAD, 0, 0⟩ .setupStage
          dfu_init).globals.dfu_status = .errProg
       ∧ (dfudf_out_req (descAttrs false) ⟨USB_DFU_DNLOAD, 0, 0⟩ .setupStage
          dfu_init).globals.dfu_state = .dfuError
       ∧ (dfudf_out_req (descAttrs false) ⟨USB_DFU_DNLOAD, 0, 0⟩ .setupStage
          dfu_init).ret = .errInvalidArg
       ∧ (dfudf_out_req (descAttrs false) ⟨USB_DFU_DNLOAD, 0, 0⟩ .setupStage
          dfu_init).xfer = none) :=
  ⟨rfl, rfl, rfl, C6_zero_length_idle_rejected false _ _ _ rfl rfl rfl⟩

/-- C8: a GETSTATUS poll in `ManifestSync` first queues the 6-byte status
response and then moves to `Manifest` when the manifestation-complete flag is
false; when the flag is true it moves to `Idle` if the manifestation-tolerant
bit is set and to `ManifestWaitReset` otherwise. -/
theorem C8_manifest_sync_poll (attrs : DfuAttrs) (req : UsbReq)
    (g : DfuGlobals) (h : req.bRequest = USB_DFU_GETSTATUS)
    (hs : g.dfu_state = .dfuManifestSync) :
    (dfudf_in_req attrs req .setupStage g).xfer =
      some (.bytes
        [statusCode g.dfu_status, 10, 0, 0, stateCode g.dfu_state, 0])
    ∧ (dfudf_in_req attrs req .setupStage g).globals.dfu_state =
        (if g.dfu_manifestation_complete = false then .dfuManifest
         else if attrs.manifestTolerant then .dfuIdle
         else .dfuManifestWaitReset) := by
  cases hm : g.dfu_manifestation_complete <;>
    cases ht : attrs.manifestTolerant <;>
      simp [dfudf_in_req, h, hs, hm, ht, USB_DFU_UPLOAD, USB_DFU_GETSTATUS]

/-- C8, witness: GETSTATUS in `ManifestSync` with manifestation complete and
the manifestation-tolerant bit clear. -/
theorem C8_manifest_sync_poll_witness :
    (⟨USB_DFU_GETSTATUS, 0, 0⟩ : UsbReq).bRequest = USB_DFU_GETSTATUS
    ∧ gManifestDone.dfu_state = .dfuManifestSync
    ∧ ((dfudf_in_req (descAttrs false) ⟨USB_DFU_GETSTATUS, 0, 0⟩ .setupStage
          gManifestDone).xfer =
        some (.bytes
          [statusCode gManifestDone.dfu_status, 10, 0, 0,
           stateCode gManifestDone.dfu_state, 0])
       ∧ (dfudf_in_req (descAttrs false) ⟨USB_DFU_GETSTATUS, 0, 0⟩ .setupStage
            gManifestDone).globals.dfu_state =
          (if gManifestDone.dfu_manifestation_complete = false then .dfuManifest
           else if (descAttrs false).manifestTolerant then .dfuIdle
           else .dfuManifestWaitReset)) :=
  ⟨rfl, rfl, C8_manifest_sync_poll (descAttrs false) _ _ rfl rfl⟩

/-- C9: any request code outside the codes the OUT handler recognizes
(DETACH, CLRSTATUS, ABORT, DNLOAD) falls into its default branch, and any
code outside the codes the IN handler recognizes (UPLOAD, GETSTATUS,
GETSTATE) falls into its default branch: in both directions the state is set
to `Error` and the handler returns `ERR_INVALID_ARG`. -/
theorem C9_unrecognized_request (attrs : DfuAttrs) (req : UsbReq)
    (stage : UsbCtrlStage) (g : DfuGlobals) :
    (req.bRequest ≠ USB_DFU_DETACH → req.bRequest ≠ USB_DFU_CLRSTATUS →
     req.bRequest ≠ USB_DFU_ABORT → req.bRequest ≠ USB_DFU_DNLOAD →
     (dfudf_out_req attrs req stage g).globals.dfu_state = .dfuError
     ∧ (dfudf_out_req attrs req stage g).ret = .errInvalidArg)
    ∧ (req.bRequest ≠ USB_DFU_UPLOAD → req.bRequest ≠ USB_DFU_GETSTATUS →
       req.bRequest ≠ USB_DFU_GETSTATE →
       (dfudf_in_req attrs req .setupStage g).globals.dfu_state = .dfuError
       ∧ (dfudf_in_req attrs req .setupStage g).ret = .errInvalidArg) := by
  constructor
  · intro h1 h2 h3 h4
    simp [dfudf_out_req, h1, h2, h3, h4]
  · intro h1 h2 h3
    simp [dfudf_in_req, h1, h2, h3]

/-- C9, witness: request code 7, unrecognized in both directions. -/
theorem C9_unrecognized_request_witness :
    ((dfudf_out_req (descAttrs false) ⟨7, 0, 0⟩ .setupStage
        dfu_init).globals.dfu_state = .dfuError
     ∧ (dfudf_out_req (descAttrs false) ⟨7, 0, 0⟩ .setupStage
        dfu_init).ret = .errInvalidArg)
    ∧ ((dfudf_in_req (descAttrs false) ⟨7, 0, 0⟩ .setupStage
        dfu_init).globals.dfu_state = .dfuError
       ∧ (dfudf_in_req (descAttrs false) ⟨7, 0, 0⟩ .setupStage
          dfu_init).ret = .errInvalidArg) :=
  ⟨(C9_unrecognized_request (descAttrs false) ⟨7, 0, 0⟩ .setupStage
      dfu_init).1 (by decide) (by decide) (by decide) (by decide),
   (C9_unrecognized_request (descAttrs false) ⟨7, 0, 0⟩ .setupStage
      dfu_init).2 (by decide) (by decide) (by decide)⟩

/-- Helper: the IN request handler never writes `dfu_status`. -/
theorem dfudf_in_req_status (attrs : DfuAttrs) (req : UsbReq)
    (stage : UsbCtrlStage) (g : DfuGlobals) :
    (dfudf_in_req attrs req stage g).globals.dfu_status = g.dfu_status := by
  unfold dfudf_in_req
  dsimp only
  split_ifs <;> rfl

set_option maxHeartbeats 1600000 in
/-- Helper: every OUT request either leaves `dfu_status` unchanged, or sets
it to `ErrProg` together with state `Error` (the DNLOAD rejections), or is a
CLRSTATUS that resets it to Ok together with state `Idle`. -/
theorem dfudf_out_req_status_state (attrs : DfuAttrs) (req : UsbReq)
    (stage : UsbCtrlStage) (g : DfuGlobals) :
    (dfudf_out_req attrs req stage g).globals.dfu_status = g.dfu_status
    ∨ ((dfudf_out_req attrs req stage g).globals.dfu_status = .errProg
       ∧ (dfudf_out_req attrs req stage g).globals.dfu_state = .dfuError)
    ∨ (req.bRequest = USB_DFU_CLRSTATUS
       ∧ (dfudf_out_req attrs req stage g).globals.dfu_status = .ok
       ∧ (dfudf_out_req attrs req stage g).globals.dfu_state = .dfuIdle) := by
  unfold dfudf_out_req
  dsimp only
  split_ifs <;>
    first
      | exact Or.inl rfl
      | exact Or.inr (Or.inl ⟨rfl, rfl⟩)
      | exact Or.inr (Or.inr ⟨by assumption, rfl, rfl⟩)

/-- C2, counterexample: the state reached from the initial globals by a
single UPLOAD request is reachable, has state `Error`, and still has status
Ok — the handler sets `dfu_state = USB_DFU_STATE_DFU_ERROR` for the
unsupported request without touching `dfu_status`. -/
theorem C2_counterexample :
    Reachable (descAttrs false)
      (dfu_step (descAttrs false) .dirIn ⟨USB_DFU_UPLOAD, 0, 0⟩ .setupStage
        dfu_init)
    ∧ (dfu_step (descAttrs false) .dirIn ⟨USB_DFU_UPLOAD, 0, 0⟩ .setupStage
        dfu_init).dfu_state = .dfuError
    ∧ (dfu_step (descAttrs false) .dirIn ⟨USB_DFU_UPLOAD, 0, 0⟩ .setupStage
        dfu_init).dfu_status = .ok :=
  ⟨Reachable.step _ _ _ Reachable.init, by decide, by decide⟩

/-- C2, amended: once the status is a non-Ok value it stays non-Ok across
every request-handler step whose request code is not CLRSTATUS; state `Error`
itself does not guarantee a non-Ok status. -/
theorem C2_status_persists (attrs : DfuAttrs) (dir : DfuDir) (req : UsbReq)
    (stage : UsbCtrlStage) (g : DfuGlobals)
    (h : g.dfu_status ≠ .ok) (hr : req.bRequest ≠ USB_DFU_CLRSTATUS) :
    (dfu_step attrs dir req stage g).dfu_status ≠ .ok := by
  cases dir
  · simp only [dfu_step]
    rw [dfudf_in_req_status]
    exact h
  · simp only [dfu_step]
    rcases dfudf_out_req_status_state attrs req stage g with h1 | h1 | h1
    · rw [h1]; exact h
    · rw [h1.1]; decide
    · exact absurd h1.1 hr

/-- C2, witness: a non-Ok status survives an ABORT step. -/
theorem C2_status_persists_witness :
    gErrorProg.dfu_status ≠ .ok
    ∧ (⟨USB_DFU_ABORT, 0, 0⟩ : UsbReq).bRequest ≠ USB_DFU_CLRSTATUS
    ∧ (dfu_step (descAttrs false) .dirOut ⟨USB_DFU_ABORT, 0, 0⟩ .setupStage
        gErrorProg).dfu_status ≠ .ok :=
  ⟨by decide, by decide,
   C2_status_persists (descAttrs false) .dirOut ⟨USB_DFU_ABORT, 0, 0⟩
     .setupStage gErrorProg (by decide) (by decide)⟩

/-- C10, counterexample: the globals with state `Error` and status `ErrProg`
satisfy "non-Ok status implies state `Error`", but an ABORT step from there
yields status `ErrProg` with state `Idle`, so the invariant is not preserved
by every handler step. -/
theorem C10_counterexample :
    gErrorProg.dfu_status ≠ .ok
    ∧ gErrorProg.dfu_state = .dfuError
    ∧ (dfu_step (descAttrs false) .dirOut ⟨USB_DFU_ABORT, 0, 0⟩ .setupStage
        gErrorProg).dfu_status ≠ .ok
    ∧ (dfu_step (descAttrs false) .dirOut ⟨USB_DFU_ABORT, 0, 0⟩ .setupStage
        gErrorProg).dfu_state ≠ .dfuError := by
  decide

/-- C10, amended: whenever a request-handler step changes `dfu_status`, it
either sets it to `ErrProg` in the same step that sets the state to `Error`,
or resets it to Ok in the same step that sets the state to `Idle`; the
invariant "non-Ok status implies state `Error`" itself is not preserved
(ABORT moves to `Idle` without touching a non-Ok status). -/
theorem C10_status_change_pairs (attrs : DfuAttrs) (dir : DfuDir)
    (req : UsbReq) (stage : UsbCtrlStage) (g : DfuGlobals)
    (h : (dfu_step attrs dir req stage g).dfu_status ≠ g.dfu_status) :
    ((dfu_step attrs dir req stage g).dfu_status = .errProg
     ∧ (dfu_step attrs dir req stage g).dfu_state = .dfuError)
    ∨ ((dfu_step attrs dir req stage g).dfu_status = .ok
       ∧ (dfu_step attrs dir req stage g).dfu_state = .dfuIdle) := by
  cases dir
  · exact absurd (dfudf_in_req_status attrs req stage g) h
  · rcases dfudf_out_req_status_state attrs req stage g with h1 | h1 | h1
    · exact absurd h1 h
    · exact Or.inl h1
    · exact Or.inr ⟨h1.2.1, h1.2.2⟩

/-- C10, witness: CLRSTATUS from `Error`/`ErrProg` changes the status, and
does so by resetting it to Ok while setting the state to `Idle`. -/
theorem C10_status_change_pairs_witness :
    (dfu_step (descAttrs false) .dirOut ⟨USB_DFU_CLRSTATUS, 0, 0⟩ .setupStage
      gErrorProg).dfu_status ≠ gErrorProg.dfu_status
    ∧ (((dfu_step (descAttrs false) .dirOut ⟨USB_DFU_CLRSTATUS, 0, 0⟩
          .setupStage gErrorProg).dfu_status = .errProg
        ∧ (dfu_step (descAttrs false) .dirOut ⟨USB_DFU_CLRSTATUS, 0, 0⟩
            .setupStage gErrorProg).dfu_state = .dfuError)
       ∨ ((dfu_step (descAttrs false) .dirOut ⟨USB_DFU_CLRSTATUS, 0, 0⟩
            .setupStage gErrorProg).dfu_status = .ok
          ∧ (dfu_step (descAttrs false) .dirOut ⟨USB_DFU_CLRSTATUS, 0, 0⟩
              .setupStage gErrorProg).dfu_state = .dfuIdle)) :=
  ⟨by decide,
   C10_status_change_pairs (descAttrs false) .dirOut ⟨USB_DFU_CLRSTATUS, 0, 0⟩
     .setupStage gErrorProg (by decide)⟩
